import Mathlib

/-
Shallow embedding of abiiranathan/httpclient (src/httpclient.cpp and
src/include/httpclient/httpclient.hpp).

Modelling conventions:
- Byte sequences (QByteArray) are modelled as lists of naturals; the
  implicit QByteArray to QString conversion on the async error signal and
  the QString to std string conversion inside NetworkException are
  modelled as byte-identities, since the repository treats payloads as
  opaque bytes.
- A completed QNetworkReply is modelled by the three observations the code
  makes of it: the transport error code (QNetworkReply NetworkError, where
  0 is NoError), the optional HttpStatusCodeAttribute (QVariant toInt of an
  invalid variant yields 0, modelled by variantToInt), and the body that
  readAll returns.
- Signal emission in onReplyFinished is modelled as the list of emitted
  events, in emission order.
- QNetworkRequest raw headers are modelled as the list of (name, value)
  pairs in insertion order; setRawHeader replaces an existing header with
  the same name in place and otherwise appends, following the Qt contract
  the code relies on.
- File and TLS state for setRootCA are passed explicitly: the file system
  is a function from path to either the error string of a failed open or
  the bytes readAll returns; a QSslCertificate is modelled by the bytes it
  was constructed from; the process default QSslConfiguration is modelled
  by its caCertificates list.
-/

/-- Bytes of a QByteArray. -/
abbrev Bytes := List Nat

/-- Header list of a QNetworkRequest: raw header (name, value) pairs in
insertion order. -/
abbrev Headers := List (String × String)

/-- NetworkException from httpclient.cpp lines 186-195: carries the
response status code and the message bytes. -/
structure NetworkException where
  statusCode : Int
  message : Bytes
deriving DecidableEq, Repr

/-- NetworkException getStatusCode (httpclient.cpp lines 188-190). -/
def NetworkException.getStatusCode (e : NetworkException) : Int :=
  e.statusCode

/-- A completed QNetworkReply as observed by the completion code:
transport error code (0 is QNetworkReply NoError), the optional HTTP
status attribute, and the body. -/
structure Reply where
  errorCode : Nat
  statusAttr : Option Int
  body : Bytes
deriving DecidableEq, Repr

/-- QVariant toInt as applied to the HttpStatusCodeAttribute: an invalid
(absent) variant converts to 0. -/
def variantToInt : Option Int → Int
  | none => 0
  | some n => n

/-- The signals of HttpClient (httpclient.hpp lines 209-225): success
carries the response data, error carries the response data converted to a
string (modelled as the same bytes). -/
inductive AsyncEvent where
  | success (data : Bytes)
  | error (errorString : Bytes)
deriving DecidableEq, Repr

namespace HttpClient

/-- HttpClient onReplyFinished (httpclient.cpp lines 84-97), as the list
of events it emits for a completed reply: requestFailed is the check
against QNetworkReply NoError, and the reply is classified by
requestFailed or statusCode greater than 300. -/
def onReplyFinished (reply : Reply) : List AsyncEvent :=
  if reply.errorCode ≠ 0 ∨ variantToInt reply.statusAttr > 300 then
    [AsyncEvent.error reply.body]
  else
    [AsyncEvent.success reply.body]

/-- HttpClient waitForResponse (httpclient.cpp lines 154-170) after the
awaited reply has finished: throwing is modelled as Except.error, the
normal return as Except.ok. -/
def waitForResponse (reply : Reply) : Except NetworkException Bytes :=
  if reply.errorCode ≠ 0 ∨ variantToInt reply.statusAttr > 300 then
    Except.error ⟨variantToInt reply.statusAttr, reply.body⟩
  else
    Except.ok reply.body

/-- QNetworkRequest setRawHeader: replaces the value of an existing raw
header with the same name in place, otherwise appends the pair. -/
def setRawHeader (request : Headers) (name value : String) : Headers :=
  if request.any (fun p => p.1 == name) then
    request.map (fun p => if p.1 = name then (name, value) else p)
  else
    request ++ [(name, value)]

/-- The loop of HttpClient setHeaders (httpclient.cpp lines 142-146):
apply every instance default header to the request with setRawHeader, in
iteration order. -/
def applyDefaults (headers : Headers) (request : Headers) : Headers :=
  headers.foldl (fun req p => setRawHeader req p.1 p.2) request

/-- HttpClient setHeaders (httpclient.cpp lines 140-152): apply the
instance default headers, then, when the bearer token is not empty, set
the Authorization raw header to Bearer followed by the token. -/
def setHeaders (headers : Headers) (token : String) (request : Headers) : Headers :=
  if token = "" then
    applyDefaults headers request
  else
    setRawHeader (applyDefaults headers request) "Authorization" ("Bearer " ++ token)

/-- The values carried by the raw headers with the given name, in order. -/
def valuesFor (request : Headers) (key : String) : List String :=
  (request.filter (fun p => p.1 == key)).map Prod.snd

/-- The process default QSslConfiguration as the code uses it: its list of
CA certificates, each modelled by the bytes it was constructed from. -/
structure SslConfiguration where
  caCertificates : List Bytes
deriving DecidableEq, Repr

/-- HttpClient setRootCA (httpclient.cpp lines 15-34) with the file system
and the default SSL configuration passed explicitly: fs maps a path to
Except.error errorString when the file cannot be opened for reading and to
Except.ok bytes otherwise. On open failure it throws NetworkException with
status 0 and the error string; on success it appends the certificate built
from the bytes to the default configuration. -/
def setRootCA (fs : String → Except Bytes Bytes) (certPath : String)
    (config : SslConfiguration) : Except NetworkException SslConfiguration :=
  match fs certPath with
  | Except.error errString => Except.error ⟨0, errString⟩
  | Except.ok bytes => Except.ok ⟨config.caCertificates ++ [bytes]⟩

/-- A file system fixture on which every path opens and reads the single
byte 1. -/
def fsGood : String → Except Bytes Bytes :=
  fun _ => Except.ok [1]

/-- A file system fixture on which no path can be opened, every open
failing with the error string bytes 2. -/
def fsBad : String → Except Bytes Bytes :=
  fun _ => Except.error [2]

/-- The HTTP methods named by the spec. -/
inductive Method where
  | GET | HEAD | POST | PUT | PATCH | DELETE
deriving DecidableEq, Repr

/-- A request as built and submitted by a dispatch method: the verb the
QNetworkAccessManager call issues, the url, the raw headers set by
setHeaders on a fresh QNetworkRequest, and the optional body. -/
structure SubmittedRequest where
  verb : String
  url : String
  rawHeaders : Headers
  body : Option Bytes
deriving DecidableEq, Repr

/-- HttpClient get (httpclient.cpp lines 43-49): builds the request with
the merged headers and submits it through manager get. -/
def get (headers : Headers) (token : String) (url : String) : SubmittedRequest :=
  { verb := "GET", url := url, rawHeaders := setHeaders headers token [], body := none }

/-- HttpClient post (httpclient.cpp lines 51-57). -/
def post (headers : Headers) (token : String) (url : String) (data : Bytes) : SubmittedRequest :=
  { verb := "POST", url := url, rawHeaders := setHeaders headers token [], body := some data }

/-- HttpClient put (httpclient.cpp lines 59-65). -/
def put (headers : Headers) (token : String) (url : String) (data : Bytes) : SubmittedRequest :=
  { verb := "PUT", url := url, rawHeaders := setHeaders headers token [], body := some data }

/-- HttpClient patch (httpclient.cpp lines 67-73): submitted through
manager sendCustomRequest with the PATCH verb. -/
def patch (headers : Headers) (token : String) (url : String) (data : Bytes) : SubmittedRequest :=
  { verb := "PATCH", url := url, rawHeaders := setHeaders headers token [], body := some data }

/-- HttpClient del (httpclient.cpp lines 75-82): submitted through manager
deleteResource. -/
def del (headers : Headers) (token : String) (url : String) : SubmittedRequest :=
  { verb := "DELETE", url := url, rawHeaders := setHeaders headers token [], body := none }

/-- HttpClient get_sync (httpclient.cpp lines 99-105): builds and submits
the same request as get, with the transport passed explicitly as the map
from the submitted request to its completed reply, then waits on the
reply. -/
def get_sync (transport : SubmittedRequest → Reply) (headers : Headers)
    (token : String) (url : String) : Except NetworkException Bytes :=
  waitForResponse (transport (get headers token url))

/-- HttpClient post_sync (httpclient.cpp lines 107-113). -/
def post_sync (transport : SubmittedRequest → Reply) (headers : Headers)
    (token : String) (url : String) (data : Bytes) : Except NetworkException Bytes :=
  waitForResponse (transport (post headers token url data))

/-- HttpClient put_sync (httpclient.cpp lines 115-121). -/
def put_sync (transport : SubmittedRequest → Reply) (headers : Headers)
    (token : String) (url : String) (data : Bytes) : Except NetworkException Bytes :=
  waitForResponse (transport (put headers token url data))

/-- HttpClient patch_sync (httpclient.cpp lines 123-129). -/
def patch_sync (transport : SubmittedRequest → Reply) (headers : Headers)
    (token : String) (url : String) (data : Bytes) : Except NetworkException Bytes :=
  waitForResponse (transport (patch headers token url data))

/-- HttpClient del_sync (httpclient.cpp lines 131-138). -/
def del_sync (transport : SubmittedRequest → Reply) (headers : Headers)
    (token : String) (url : String) : Except NetworkException Bytes :=
  waitForResponse (transport (del headers token url))

/-- Which declared asynchronous dispatch methods of httpclient.hpp have a
definition in httpclient.cpp: head is declared at httpclient.hpp line 129
but httpclient.cpp contains no definition for it. -/
def hasAsyncEntryPoint : Method → Bool
  | Method.GET => true
  | Method.HEAD => false
  | Method.POST => true
  | Method.PUT => true
  | Method.PATCH => true
  | Method.DELETE => true

/-- Which declared synchronous dispatch methods of httpclient.hpp have a
definition in httpclient.cpp: head_sync is declared at httpclient.hpp line
175 but httpclient.cpp contains no definition for it. -/
def hasSyncEntryPoint : Method → Bool
  | Method.GET => true
  | Method.HEAD => false
  | Method.POST => true
  | Method.PUT => true
  | Method.PATCH => true
  | Method.DELETE => true

/-- Claim C1: for every completed request whose transport reports no error
and whose HTTP status is s, the outcome is Success iff s is at most 300 and
Failure iff s is greater than 300, on both the sync path (waitForResponse
returns vs throws) and the async path (success vs error signal). -/
theorem classification_boundary (reply : Reply) (s : Int)
    (herr : reply.errorCode = 0) (hs : reply.statusAttr = some s) :
    (onReplyFinished reply = [AsyncEvent.success reply.body] ↔ s ≤ 300) ∧
    (onReplyFinished reply = [AsyncEvent.error reply.body] ↔ 300 < s) ∧
    ((∃ b, waitForResponse reply = Except.ok b) ↔ s ≤ 300) ∧
    ((∃ e, waitForResponse reply = Except.error e) ↔ 300 < s) := by
  have hv : variantToInt reply.statusAttr = s := by rw [hs]; rfl
  by_cases h : (300 : Int) < s
  · simp [onReplyFinished, waitForResponse, hv, herr, h, not_le.mpr h]
  · simp [onReplyFinished, waitForResponse, hv, herr, h, not_lt.mp h]

/-- Witness for C1 at the boundary: status exactly 300 is Success and
status 301 is Failure, on both paths. -/
theorem classification_boundary_witness :
    onReplyFinished (Reply.mk 0 (some 300) [1]) = [AsyncEvent.success [1]] ∧
    onReplyFinished (Reply.mk 0 (some 301) [1]) = [AsyncEvent.error [1]] ∧
    (∃ b, waitForResponse (Reply.mk 0 (some 300) [1]) = Except.ok b) ∧
    (∃ e, waitForResponse (Reply.mk 0 (some 301) [1]) = Except.error e) :=
  ⟨(classification_boundary (Reply.mk 0 (some 300) [1]) 300 rfl rfl).1.mpr (by decide),
   (classification_boundary (Reply.mk 0 (some 301) [1]) 301 rfl rfl).2.1.mpr (by decide),
   (classification_boundary (Reply.mk 0 (some 300) [1]) 300 rfl rfl).2.2.1.mpr (by decide),
   (classification_boundary (Reply.mk 0 (some 301) [1]) 301 rfl rfl).2.2.2.mpr (by decide)⟩

/-- Claim C2: a completed request whose transport reports an error is
classified Failure regardless of the HTTP status, and when no HTTP status
attribute is available the status carried by the sync failure path is 0
(the async error event carries only the body, see C7). -/
theorem transport_error_failure (reply : Reply) (h : reply.errorCode ≠ 0) :
    onReplyFinished reply = [AsyncEvent.error reply.body] ∧
    waitForResponse reply = Except.error ⟨variantToInt reply.statusAttr, reply.body⟩ ∧
    (reply.statusAttr = none → waitForResponse reply = Except.error ⟨0, reply.body⟩) := by
  have hcond : reply.errorCode ≠ 0 ∨ variantToInt reply.statusAttr > 300 := Or.inl h
  refine ⟨by simp [onReplyFinished, hcond], by simp [waitForResponse, hcond], ?_⟩
  intro hn
  simp [waitForResponse, h, hn, variantToInt]

/-- Witness for C2: a reply with transport error code 5 and no status
attribute fails on both paths, the sync error carrying status 0. -/
theorem transport_error_failure_witness :
    onReplyFinished (Reply.mk 5 none [7]) = [AsyncEvent.error [7]] ∧
    waitForResponse (Reply.mk 5 none [7]) = Except.error ⟨0, [7]⟩ :=
  ⟨(transport_error_failure (Reply.mk 5 none [7]) (by decide)).1,
   (transport_error_failure (Reply.mk 5 none [7]) (by decide)).2.2 rfl⟩

/-- Claim C3: every completed synchronous call does exactly one of two
things: on Success it returns the response body, and on Failure it raises
the structured NetworkException carrying both the status code and the
response body. -/
theorem sync_exclusive_outcome (reply : Reply) :
    (waitForResponse reply = Except.ok reply.body ∧
      ¬ waitForResponse reply = Except.error ⟨variantToInt reply.statusAttr, reply.body⟩) ∨
    (waitForResponse reply = Except.error ⟨variantToInt reply.statusAttr, reply.body⟩ ∧
      ¬ waitForResponse reply = Except.ok reply.body) := by
  by_cases h : reply.errorCode ≠ 0 ∨ variantToInt reply.statusAttr > 300
  · exact Or.inr ⟨by simp [waitForResponse, h], by simp [waitForResponse, h]⟩
  · exact Or.inl ⟨by simp [waitForResponse, h], by simp [waitForResponse, h]⟩

/-- Claim C4: the completion handler emits exactly one event per completed
async request: one of the success and error signals fires, exactly once,
never both and never neither. -/
theorem async_exactly_one_event (reply : Reply) :
    (onReplyFinished reply).length = 1 ∧
    (((∃ d, AsyncEvent.success d ∈ onReplyFinished reply) ∧
        ¬ ∃ d, AsyncEvent.error d ∈ onReplyFinished reply) ∨
      ((∃ d, AsyncEvent.error d ∈ onReplyFinished reply) ∧
        ¬ ∃ d, AsyncEvent.success d ∈ onReplyFinished reply)) := by
  by_cases h : reply.errorCode ≠ 0 ∨ variantToInt reply.statusAttr > 300
  · exact ⟨by simp [onReplyFinished, h],
      Or.inr ⟨⟨reply.body, by simp [onReplyFinished, h]⟩, by simp [onReplyFinished, h]⟩⟩
  · exact ⟨by simp [onReplyFinished, h],
      Or.inl ⟨⟨reply.body, by simp [onReplyFinished, h]⟩, by simp [onReplyFinished, h]⟩⟩

/-- Claim C7: the async error event carries exactly the raw response body
bytes (the same bytes the sync NetworkException carries as its message)
and no status code, and the async success event carries exactly the raw
response body bytes. -/
theorem async_payload_raw_body (reply : Reply) (d : Bytes) :
    (AsyncEvent.error d ∈ onReplyFinished reply →
      d = reply.body ∧
        waitForResponse reply = Except.error ⟨variantToInt reply.statusAttr, d⟩) ∧
    (AsyncEvent.success d ∈ onReplyFinished reply → d = reply.body) := by
  by_cases h : reply.errorCode ≠ 0 ∨ variantToInt reply.statusAttr > 300
  · constructor
    · intro hm
      have hd : d = reply.body := by simpa [onReplyFinished, h] using hm
      subst hd
      exact ⟨rfl, by simp [waitForResponse, h]⟩
    · intro hm
      simp [onReplyFinished, h] at hm
  · constructor
    · intro hm
      simp [onReplyFinished, h] at hm
    · intro hm
      simpa [onReplyFinished, h] using hm

/-- Witness for C7: a 404 reply emits the error event with its body and
the sync path carries the same bytes; a 200 reply emits the success event
with its body. -/
theorem async_payload_raw_body_witness :
    ([1, 2] = (Reply.mk 0 (some 404) [1, 2]).body ∧
      waitForResponse (Reply.mk 0 (some 404) [1, 2]) = Except.error ⟨404, [1, 2]⟩) ∧
    [3] = (Reply.mk 0 (some 200) [3]).body :=
  ⟨(async_payload_raw_body (Reply.mk 0 (some 404) [1, 2]) [1, 2]).1 (by decide),
   (async_payload_raw_body (Reply.mk 0 (some 200) [3]) [3]).2 (by decide)⟩

/-- Claim C10: a completed reply with no transport error whose status
attribute is absent or 0 is classified Success, and the body is returned
and emitted normally, even though status 0 is reserved by the spec for
transport-level failure. -/
theorem absent_status_success (reply : Reply) (herr : reply.errorCode = 0)
    (hs : reply.statusAttr = none ∨ reply.statusAttr = some 0) :
    onReplyFinished reply = [AsyncEvent.success reply.body] ∧
    waitForResponse reply = Except.ok reply.body := by
  have hv : variantToInt reply.statusAttr = 0 := by
    rcases hs with h | h <;> rw [h] <;> rfl
  have hcond : ¬ (reply.errorCode ≠ 0 ∨ variantToInt reply.statusAttr > 300) := by
    rw [herr, hv]; simp
  exact ⟨by simp [onReplyFinished, hcond], by simp [waitForResponse, hcond]⟩

/-- Witness for C10: a reply with no transport error and an absent status
attribute is delivered as Success on both paths. -/
theorem absent_status_success_witness :
    onReplyFinished (Reply.mk 0 none [9]) = [AsyncEvent.success [9]] ∧
    waitForResponse (Reply.mk 0 none [9]) = Except.ok [9] :=
  absent_status_success (Reply.mk 0 none [9]) rfl (Or.inl rfl)

/-- Replacing every header named n in a list leaves the headers filtered
on n as the same number of copies of the pair (n, v). -/
theorem filter_map_replace_self (request : Headers) (n v : String) :
    (request.map (fun p => if p.1 = n then (n, v) else p)).filter
        (fun p => p.1 == n) =
      (request.filter (fun p => p.1 == n)).map (fun _ => (n, v)) := by
  induction request with
  | nil => rfl
  | cons q t ih =>
    by_cases hq : q.1 = n
    · simp [hq, ih]
    · simp [hq, ih]

/-- Replacing every header named n leaves the headers filtered on a
different name key unchanged. -/
theorem filter_map_replace_ne (request : Headers) (n v key : String) (h : key ≠ n) :
    (request.map (fun p => if p.1 = n then (n, v) else p)).filter
        (fun p => p.1 == key) =
      request.filter (fun p => p.1 == key) := by
  induction request with
  | nil => rfl
  | cons q t ih =>
    by_cases hq : q.1 = n
    · have hk1 : ¬ n = key := Ne.symm h
      simp [hq, hk1, ih]
    · by_cases hqk : q.1 = key
      · simp [hq, hqk, h, ih]
      · simp [hq, hqk, ih]

/-- setRawHeader with name n leaves the headers filtered on a different
name key unchanged. -/
theorem filter_setRawHeader_ne (request : Headers) (n v key : String) (h : key ≠ n) :
    (setRawHeader request n v).filter (fun p => p.1 == key) =
      request.filter (fun p => p.1 == key) := by
  unfold setRawHeader
  by_cases hany : request.any (fun p => p.1 == n) = true
  · rw [if_pos hany]
    exact filter_map_replace_ne request n v key h
  · rw [if_neg hany]
    rw [List.filter_append]
    have hk : (n == key) = false := by simp [Ne.symm h]
    simp [List.filter, hk]

/-- When some header named n is already present, setRawHeader rewrites all
headers filtered on n to copies of (n, v). -/
theorem filter_setRawHeader_self_pos (request : Headers) (n v : String)
    (hany : request.any (fun p => p.1 == n) = true) :
    (setRawHeader request n v).filter (fun p => p.1 == n) =
      (request.filter (fun p => p.1 == n)).map (fun _ => (n, v)) := by
  unfold setRawHeader
  rw [if_pos hany]
  exact filter_map_replace_self request n v

/-- When no header named n is present, setRawHeader appends and the
headers filtered on n are exactly the new pair. -/
theorem filter_setRawHeader_self_neg (request : Headers) (n v : String)
    (hany : request.any (fun p => p.1 == n) = false) :
    (setRawHeader request n v).filter (fun p => p.1 == n) = [(n, v)] := by
  unfold setRawHeader
  rw [if_neg (by simp [hany])]
  rw [List.filter_append]
  have hnil : request.filter (fun p => p.1 == n) = [] := by
    rw [List.filter_eq_nil_iff]
    intro p hp
    have := List.any_eq_false.mp hany p hp
    simpa using this
  simp [hnil, List.filter]

/-- Applying the instance defaults preserves the bound of at most one
header per name, because setRawHeader only replaces in place or appends a
fresh name. -/
theorem length_filter_applyDefaults_le (headers : Headers) (request : Headers)
    (key : String)
    (h : (request.filter (fun p => p.1 == key)).length ≤ 1) :
    ((applyDefaults headers request).filter (fun p => p.1 == key)).length ≤ 1 := by
  induction headers generalizing request with
  | nil => exact h
  | cons q t ih =>
    simp only [applyDefaults, List.foldl_cons]
    refine ih (setRawHeader request q.1 q.2) ?_
    by_cases hk : key = q.1
    · subst hk
      by_cases hany : request.any (fun p => p.1 == q.1) = true
      · rw [filter_setRawHeader_self_pos request q.1 q.2 hany]
        simpa using h
      · rw [filter_setRawHeader_self_neg request q.1 q.2
          (by simp only [Bool.not_eq_true] at hany; exact hany)]
        simp
    · rw [filter_setRawHeader_ne request q.1 q.2 key hk]
      exact h

/-- When no instance default is named key, applying the defaults to a
request with no header named key yields a request with no header named
key. -/
theorem filter_applyDefaults_eq_nil (headers : Headers) (request : Headers)
    (key : String) (h : ∀ p ∈ headers, p.1 ≠ key)
    (h0 : request.filter (fun p => p.1 == key) = []) :
    (applyDefaults headers request).filter (fun p => p.1 == key) = [] := by
  induction headers generalizing request with
  | nil => exact h0
  | cons q t ih =>
    simp only [applyDefaults, List.foldl_cons]
    refine ih (setRawHeader request q.1 q.2)
      (fun p hp => h p (List.mem_cons_of_mem q hp)) ?_
    rw [filter_setRawHeader_ne request q.1 q.2 key
      (Ne.symm (h q (List.mem_cons_self q t)))]
    exact h0

/-- Claim C5: for every instance default header set and non-empty bearer
token, the merged header set carries exactly one Authorization header and
its value is Bearer followed by the token, any instance-supplied
Authorization header being overwritten; determinism is immediate because
setHeaders is a function of (defaults, token). -/
theorem merged_authorization (headers : Headers) (token : String)
    (h : token ≠ "") :
    valuesFor (setHeaders headers token []) "Authorization" =
      ["Bearer " ++ token] := by
  unfold setHeaders
  rw [if_neg h]
  have hle : ((applyDefaults headers []).filter
      (fun p => p.1 == "Authorization")).length ≤ 1 :=
    length_filter_applyDefaults_le headers [] "Authorization" (by simp)
  unfold valuesFor
  by_cases hany :
      (applyDefaults headers []).any (fun p => p.1 == "Authorization") = true
  · rw [filter_setRawHeader_self_pos (applyDefaults headers []) "Authorization"
      ("Bearer " ++ token) hany]
    obtain ⟨x, hx⟩ : ∃ x,
        (applyDefaults headers []).filter (fun p => p.1 == "Authorization") = [x] := by
      refine List.length_eq_one.mp (le_antisymm hle (List.length_pos.mpr ?_))
      intro hnil
      obtain ⟨x, hxmem, hpx⟩ := List.any_eq_true.mp hany
      have hxin : x ∈ (applyDefaults headers []).filter
          (fun p => p.1 == "Authorization") :=
        List.mem_filter.mpr ⟨hxmem, hpx⟩
      simp [hnil] at hxin
    rw [hx]
    simp
  · rw [filter_setRawHeader_self_neg (applyDefaults headers []) "Authorization"
      ("Bearer " ++ token) (by simp only [Bool.not_eq_true] at hany; exact hany)]
    simp

/-- Witness for C5: defaults that already carry an Authorization header
are overwritten, leaving exactly the bearer value. -/
theorem merged_authorization_witness :
    valuesFor (setHeaders [("Authorization", "old")] "tok" []) "Authorization" =
      ["Bearer " ++ "tok"] :=
  merged_authorization [("Authorization", "old")] "tok" (by decide)

/-- Counterexample to claim C6 as stated: with an empty bearer token, the
instance default set carrying an Authorization header leaves that header
in the merged outgoing header set, so the merged set is not free of
Authorization headers for every default set. -/
theorem empty_token_counterexample :
    valuesFor (setHeaders [("Authorization", "x")] "" []) "Authorization" ≠ [] := by
  decide

/-- Claim C6 amended: for every instance default header set that itself
contains no Authorization header, the merged outgoing header set with an
empty bearer token contains no Authorization header (the empty token adds
none; any Authorization header in the merged set comes from the
defaults). -/
theorem empty_token_no_authorization (headers : Headers)
    (h : ∀ p ∈ headers, p.1 ≠ "Authorization") :
    valuesFor (setHeaders headers "" []) "Authorization" = [] := by
  unfold setHeaders
  rw [if_pos rfl]
  unfold valuesFor
  rw [filter_applyDefaults_eq_nil headers [] "Authorization" h rfl]
  rfl

/-- Witness for the amended C6: an Authorization-free default set merged
with an empty token carries no Authorization header. -/
theorem empty_token_no_authorization_witness :
    valuesFor (setHeaders [("Accept", "json")] "" []) "Authorization" = [] :=
  empty_token_no_authorization [("Accept", "json")] (by decide)

/-- Claim C9: setRootCA fails with a status 0 configuration error exactly
when the certificate file cannot be opened for reading, the failure being
the immediate result of the call itself, and on success it appends the
certificate to the process default TLS trust configuration. -/
theorem setRootCA_spec (fs : String → Except Bytes Bytes) (certPath : String)
    (config : SslConfiguration) :
    ((∃ e, setRootCA fs certPath config = Except.error e) ↔
      (∃ msg, fs certPath = Except.error msg)) ∧
    (∀ e, setRootCA fs certPath config = Except.error e → e.statusCode = 0) ∧
    (∀ bytes, fs certPath = Except.ok bytes →
      setRootCA fs certPath config =
        Except.ok ⟨config.caCertificates ++ [bytes]⟩) := by
  unfold setRootCA
  cases hfs : fs certPath with
  | error msg =>
    refine ⟨⟨fun _ => ⟨msg, rfl⟩, fun _ => ⟨⟨0, msg⟩, rfl⟩⟩, ?_, ?_⟩
    · intro e he
      have : NetworkException.mk 0 msg = e := by
        injection he
      rw [← this]
    · intro bytes hb
      simp at hb
  | ok bytes =>
    refine ⟨⟨?_, ?_⟩, ?_, ?_⟩
    · intro ⟨e, he⟩
      simp at he
    · intro ⟨msg, hmsg⟩
      simp at hmsg
    · intro e he
      simp at he
    · intro b hb
      have : bytes = b := by injection hb
      rw [← this]

/-- Witness for C9: on a file system where every open succeeds with byte
1 the certificate is appended, and on one where every open fails the call
yields a configuration error whose status is 0. -/
theorem setRootCA_spec_witness :
    setRootCA fsGood "ca.pem" ⟨[]⟩ = Except.ok ⟨[[1]]⟩ ∧
    (∃ e, setRootCA fsBad "ca.pem" ⟨[]⟩ = Except.error e) ∧
    (NetworkException.mk 0 [2]).statusCode = 0 :=
  ⟨(setRootCA_spec fsGood "ca.pem" ⟨[]⟩).2.2 [1] rfl,
   (setRootCA_spec fsBad "ca.pem" ⟨[]⟩).1.mpr ⟨[2], rfl⟩,
   (setRootCA_spec fsBad "ca.pem" ⟨[]⟩).2.1 ⟨0, [2]⟩ rfl⟩

/-- Claim C8, against the code: of the six methods GET, HEAD, POST, PUT,
PATCH, DELETE declared with async and sync entry points in httpclient.hpp,
httpclient.cpp defines the entry points of all but HEAD, whose head and
head_sync members are declared yet have no definition anywhere in the
repository; the five implemented pairs build their request with the merged
setHeaders header set and submit it. -/
theorem head_entry_points_missing :
    hasAsyncEntryPoint Method.HEAD = false ∧
    hasSyncEntryPoint Method.HEAD = false ∧
    hasAsyncEntryPoint Method.GET = true ∧ hasSyncEntryPoint Method.GET = true ∧
    hasAsyncEntryPoint Method.POST = true ∧ hasSyncEntryPoint Method.POST = true ∧
    hasAsyncEntryPoint Method.PUT = true ∧ hasSyncEntryPoint Method.PUT = true ∧
    hasAsyncEntryPoint Method.PATCH = true ∧ hasSyncEntryPoint Method.PATCH = true ∧
    hasAsyncEntryPoint Method.DELETE = true ∧ hasSyncEntryPoint Method.DELETE = true ∧
    (∀ headers token url,
      (get headers token url).rawHeaders = setHeaders headers token [] ∧
      (del headers token url).rawHeaders = setHeaders headers token [] ∧
      (∀ transport,
        get_sync transport headers token url =
          waitForResponse (transport (get headers token url)) ∧
        del_sync transport headers token url =
          waitForResponse (transport (del headers token url)))) ∧
    (∀ headers token url data,
      (post headers token url data).rawHeaders = setHeaders headers token [] ∧
      (put headers token url data).rawHeaders = setHeaders headers token [] ∧
      (patch headers token url data).rawHeaders = setHeaders headers token [] ∧
      (∀ transport,
        post_sync transport headers token url data =
          waitForResponse (transport (post headers token url data)) ∧
        put_sync transport headers token url data =
          waitForResponse (transport (put headers token url data)) ∧
        patch_sync transport headers token url data =
          waitForResponse (transport (patch headers token url data)))) := by
  refine ⟨rfl, rfl, rfl, rfl, rfl, rfl, rfl, rfl, rfl, rfl, rfl, rfl, ?_, ?_⟩
  · intro headers token url
    exact ⟨rfl, rfl, fun transport => ⟨rfl, rfl⟩⟩
  · intro headers token url data
    exact ⟨rfl, rfl, rfl, fun transport => ⟨rfl, rfl, rfl⟩⟩

end HttpClient
